import Mathlib

/-!
Verification of the jujulib terms-of-service API client
(`src/jujugui/static/gui/src/app/assets/javascripts/jujulib/terms.js`).

The client is embedded shallowly:
* the constructor's URL normalization `url.replace(/\/?$/, '/') + termsAPIVersion`
  becomes `termsUrl`;
* the `showTerms` path construction, including the JavaScript truthiness test
  `revision === 0 || revision`, becomes `showTermsPath` over a small model
  `JSValue` of the JavaScript primitive values a caller can pass;
* the response handler becomes `showTermsCalls`, which returns the list of
  callback invocations the handler performs, so that the exactly-once property
  is expressible;
* the host Date.parse function is a parameter `parse : String → Option Int`
  (milliseconds since epoch, `none` for an unparseable string, i.e. NaN);
  a JavaScript Date value is `Option Int` (`none` = Invalid Date).
-/

/-- The process-wide API version segment, `var termsAPIVersion = 'v1'`. -/
def termsAPIVersion : String := "v1"

/-- Whether a string ends with the path separator character: the regex
`/\/?$/` in the constructor matches the final `/` when there is one
(and the empty string at the end otherwise). -/
def hasTrailingSlash (url : String) : Bool := url.data.getLast? == some '/'

/-- The constructor's stored URL:
`this.url = url.replace(/\/?$/, '/') + termsAPIVersion`.
Replacing the optional trailing slash by a slash appends a slash exactly
when none is present. -/
def termsUrl (url : String) : String :=
  (if hasTrailingSlash url then url else url ++ "/") ++ termsAPIVersion

/-- The client state built by `function terms(url, bakery)`: the stored
normalized URL and the injected transport, kept abstract as a handle. -/
structure TermsClient where
  url : String
  bakery : Nat
deriving DecidableEq, Repr

/-- Construction, `new jujulib.terms(url, bakery)`. -/
def terms.mkClient (url : String) (bakery : Nat) : TermsClient :=
  { url := termsUrl url, bakery := bakery }

/-- JavaScript primitive values a caller can pass as the `revision`
argument. Numbers are split into finite integers and NaN. -/
inductive JSValue where
  | jsNull : JSValue
  | undefined : JSValue
  | num : Int → JSValue
  | nan : JSValue
  | str : String → JSValue
  | bool : Bool → JSValue
deriving DecidableEq, Repr

/-- JavaScript truthiness of a `JSValue`. -/
def truthy : JSValue → Bool
  | .jsNull => false
  | .undefined => false
  | .num n => n != 0
  | .nan => false
  | .str s => s != ""
  | .bool b => b

/-- JavaScript string coercion, as used by `'?revision=' + revision`. -/
def jsToString : JSValue → String
  | .jsNull => "null"
  | .undefined => "undefined"
  | .num n => toString n
  | .nan => "NaN"
  | .str s => s
  | .bool b => if b then "true" else "false"

/-- The guard `revision === 0 || revision` in `showTerms`: strict equality
with the number literal 0 (only the number 0 satisfies it; NaN does not,
since NaN is a distinct `JSValue`), or truthiness. -/
def revisionPresent (v : JSValue) : Bool :=
  decide (v = .num 0) || truthy v

/-- The request path built by `showTerms`:
`var url = this.url + '/terms/' + name; if (revision === 0 || revision)
url += '?revision=' + revision`. -/
def showTermsPath (clientUrl name : String) (revision : JSValue) : String :=
  let url := clientUrl ++ "/terms/" ++ name
  if revisionPresent revision then url ++ "?revision=" ++ jsToString revision
  else url

/-- A decoded term-document object in a success response body, with the
fields the handler reads (the JSON field `created-on` is `created_on`). -/
structure TermObj where
  name : String
  title : String
  revision : Int
  created_on : String
  content : String
deriving DecidableEq, Repr

/-- The record `showTerms` hands to its callback on a non-empty response. -/
structure TermsRecord where
  name : String
  title : String
  revision : Int
  content : String
  createdAt : Option Int
deriving DecidableEq, Repr

/-- The record built from the first response element:
field-by-field copy plus `createdAt: new Date(Date.parse(terms['created-on']))`. -/
def termsRecordOf (parse : String → Option Int) (t : TermObj) : TermsRecord :=
  { name := t.name, title := t.title, revision := t.revision,
    content := t.content, createdAt := parse t.created_on }

/-- One callback invocation `(error, result)`. -/
abbrev CallbackCall := Option String × Option TermsRecord

/-- The `handler` closure inside `showTerms`, as the list of callback
invocations it performs: each branch invokes `callback` once and returns. -/
def showTermsCalls (parse : String → Option Int) :
    Option String → List TermObj → List CallbackCall
  | some e, _ => [(some e, none)]
  | none, [] => [(none, none)]
  | none, t :: _ => [(none, some (termsRecordOf parse t))]

/-- The error payload a failing transport response decodes to. -/
structure ErrorPayload where
  Message : String
deriving DecidableEq, Repr

/-- The transport outcome for one request: the transport invokes exactly one
of the two continuations, with a decoded array on success and a decoded
error payload on failure. -/
inductive TransportOutcome where
  | success : List TermObj → TransportOutcome
  | failure : ErrorPayload → TransportOutcome
deriving DecidableEq, Repr

/-- Modelled from the spec: `jujulib._makeRequest` is not under `src/`.
Per the spec's transport contract it classifies the outcome, decodes the
body, extracts the failure payload's `Message` field, and invokes the
handler once with `(message, null)` on failure or `(null, body)` on
success. -/
def makeRequest {α : Type} (handler : Option String → List TermObj → α) :
    TransportOutcome → α
  | .success body => handler none body
  | .failure payload => handler (some payload.Message) []

/-- A full `showTerms` run: the issued request path together with the
callback invocations performed once the transport resolves to `outcome`. -/
def showTermsRun (parse : String → Option Int) (client : TermsClient)
    (name : String) (revision : JSValue) (outcome : TransportOutcome) :
    String × List CallbackCall :=
  (showTermsPath client.url name revision,
    makeRequest (showTermsCalls parse) outcome)

/-- Statement-by-statement state-passing translation of the `showTerms`
body: it reads `this.url`, builds the local path, and delegates; no
statement assigns to the client's fields, so the translated body returns
the client state it was given. -/
def showTermsSt (parse : String → Option Int) (c : TermsClient)
    (name : String) (revision : JSValue) (outcome : TransportOutcome) :
    TermsClient × String × List CallbackCall :=
  let url := c.url ++ "/terms/" ++ name
  let url := if revisionPresent revision
    then url ++ "?revision=" ++ jsToString revision else url
  (c, url, makeRequest (showTermsCalls parse) outcome)

/-- Encoding of the documented revision argument type (a non-negative
integer, or null for the most recent revision) into a JavaScript value. -/
def encodeRevision : Option Int → JSValue
  | none => .jsNull
  | some n => .num n

/-- Appending a non-empty string changes a string. -/
theorem append_ne_self (a b : String) (h : b.length ≠ 0) : a ++ b ≠ a := by
  intro hab
  have hl : (a ++ b).length = a.length := by rw [hab]
  rw [String.length_append] at hl
  omega

/-- C1: for every name and every revision argument of the documented type,
the path issued by showTerms is the stored base endpoint, then "/terms/" and
the name, with "?revision=" and the revision appended exactly when a revision
was supplied; revision 0 yields "?revision=0" and null yields no query. -/
theorem showTerms_path_spec (parse : String → Option Int) (c : TermsClient)
    (name : String) (r : Option Int) (o : TransportOutcome) :
    (showTermsRun parse c name (encodeRevision r) o).1 =
      (match r with
        | none => c.url ++ "/terms/" ++ name
        | some n => c.url ++ "/terms/" ++ name ++ "?revision=" ++ toString n) ∧
    (showTermsRun parse c name (.num 0) o).1 =
      c.url ++ "/terms/" ++ name ++ "?revision=0" := by
  constructor
  · cases r with
    | none => rfl
    | some n =>
      show showTermsPath c.url name (encodeRevision (some n)) = _
      simp only [encodeRevision, showTermsPath, revisionPresent, truthy]
      rcases eq_or_ne n 0 with h | h
      · subst h; rfl
      · simp [h, jsToString]
  · show (c.url ++ "/terms/" ++ name) ++ "?revision=" ++ jsToString (.num 0) =
      c.url ++ "/terms/" ++ name ++ "?revision=0"
    rw [String.append_assoc]
    rfl

/-- Appending a slash puts a trailing slash on any string. -/
theorem hasTrailingSlash_append_slash (s : String) :
    hasTrailingSlash (s ++ "/") = true := by
  unfold hasTrailingSlash
  rw [String.data_append]
  show ((s.data ++ ['/']).getLast? == some '/') = true
  rw [List.getLast?_concat]
  rfl

/-- C3: for every base URL, with or without a trailing path separator, the
URL stored at construction is the separator-free base, one separator, and
the version segment v1. -/
theorem terms_url_normalization (base : String) (bakery : Nat)
    (h : hasTrailingSlash base = false) :
    (terms.mkClient base bakery).url = base ++ "/" ++ termsAPIVersion ∧
    (terms.mkClient (base ++ "/") bakery).url = base ++ "/" ++ termsAPIVersion := by
  unfold terms.mkClient termsUrl
  constructor
  · simp [h]
  · simp [hasTrailingSlash_append_slash]

/-- Witness for terms_url_normalization at the base URL used by the test
suite, with and without the trailing slash. -/
theorem terms_url_normalization_witness :
    hasTrailingSlash "http://1.2.3.4" = false ∧
    ((terms.mkClient "http://1.2.3.4" 0).url =
        "http://1.2.3.4" ++ "/" ++ termsAPIVersion ∧
      (terms.mkClient ("http://1.2.3.4" ++ "/") 0).url =
        "http://1.2.3.4" ++ "/" ++ termsAPIVersion) :=
  ⟨rfl, terms_url_normalization "http://1.2.3.4" 0 rfl⟩

/-- C2: a non-empty success response invokes the callback once with error
null and the record built from the first element alone: name, title,
revision and content copied unchanged, created-on parsed into createdAt;
the rest of the array has no effect. -/
theorem showTerms_nonempty_response (parse : String → Option Int)
    (c : TermsClient) (name : String) (rev : JSValue)
    (t : TermObj) (rest : List TermObj) :
    (showTermsRun parse c name rev (.success (t :: rest))).2 =
      [(none, some { name := t.name, title := t.title, revision := t.revision,
                     content := t.content, createdAt := parse t.created_on })] :=
  rfl

/-- C4: an empty success response invokes the callback once with
(null, null): not an error and not a default record. -/
theorem showTerms_empty_response (parse : String → Option Int)
    (c : TermsClient) (name : String) (rev : JSValue) :
    (showTermsRun parse c name rev (.success [])).2 = [(none, none)] :=
  rfl

/-- C5: a transport failure invokes the callback once with the error
payload's Message string and null; no record is produced. -/
theorem showTerms_failure_message (parse : String → Option Int)
    (c : TermsClient) (name : String) (rev : JSValue) (p : ErrorPayload) :
    (showTermsRun parse c name rev (.failure p)).2 = [(some p.Message, none)] :=
  rfl

/-- The emitted calls are a singleton reporting a failure message. -/
def isFailureCall (calls : List CallbackCall) : Prop :=
  ∃ msg, calls = [(some msg, none)]

/-- The emitted calls are the singleton not-found report (null, null). -/
def isNotFoundCall (calls : List CallbackCall) : Prop :=
  calls = [((none : Option String), (none : Option TermsRecord))]

/-- The emitted calls are a singleton delivering a record. -/
def isRecordCall (calls : List CallbackCall) : Prop :=
  ∃ r, calls = [((none : Option String), some r)]

/-- C6: each showTerms run invokes the callback exactly once, on exactly one
of the failure, empty-response, or non-empty-response paths. -/
theorem showTerms_exactly_once (parse : String → Option Int)
    (c : TermsClient) (name : String) (rev : JSValue) (o : TransportOutcome) :
    (showTermsRun parse c name rev o).2.length = 1 ∧
    (isFailureCall (showTermsRun parse c name rev o).2 ∨
      isNotFoundCall (showTermsRun parse c name rev o).2 ∨
      isRecordCall (showTermsRun parse c name rev o).2) ∧
    ¬(isFailureCall (showTermsRun parse c name rev o).2 ∧
      isNotFoundCall (showTermsRun parse c name rev o).2) ∧
    ¬(isFailureCall (showTermsRun parse c name rev o).2 ∧
      isRecordCall (showTermsRun parse c name rev o).2) ∧
    ¬(isNotFoundCall (showTermsRun parse c name rev o).2 ∧
      isRecordCall (showTermsRun parse c name rev o).2) := by
  cases o with
  | failure p =>
    simp [showTermsRun, makeRequest, showTermsCalls,
      isFailureCall, isNotFoundCall, isRecordCall]
  | success body =>
    cases body with
    | nil =>
      simp [showTermsRun, makeRequest, showTermsCalls,
        isFailureCall, isNotFoundCall, isRecordCall]
    | cons t rest =>
      simp [showTermsRun, makeRequest, showTermsCalls,
        isFailureCall, isNotFoundCall, isRecordCall]

/-- C7: an unparseable created-on string does not fail the call: the
callback still gets error null and a record whose other fields come from
the first element, with an invalid date as createdAt. -/
theorem showTerms_unparseable_created_on (parse : String → Option Int)
    (c : TermsClient) (name : String) (rev : JSValue)
    (t : TermObj) (rest : List TermObj)
    (h : parse t.created_on = none) :
    (showTermsRun parse c name rev (.success (t :: rest))).2 =
      [(none, some { name := t.name, title := t.title, revision := t.revision,
                     content := t.content, createdAt := none })] := by
  simp [showTermsRun, makeRequest, showTermsCalls, termsRecordOf, h]

/-- Witness for showTerms_unparseable_created_on: a parse function that
fails on every input, applied to a concrete response element. -/
theorem showTerms_unparseable_created_on_witness :
    (fun _ : String => (none : Option Int)) "not a date" = none ∧
    (showTermsRun (fun _ => none) (terms.mkClient "http://1.2.3.4" 0)
        "canonical" .jsNull
        (.success [{ name := "canonical", title := "canonical terms",
                     revision := 42, created_on := "not a date",
                     content := "Terms and conditions" }])).2 =
      [(none, some { name := "canonical", title := "canonical terms",
                     revision := 42, content := "Terms and conditions",
                     createdAt := none })] :=
  ⟨rfl, showTerms_unparseable_created_on (fun _ => none)
    (terms.mkClient "http://1.2.3.4" 0) "canonical" .jsNull
    { name := "canonical", title := "canonical terms", revision := 42,
      created_on := "not a date", content := "Terms and conditions" }
    [] rfl⟩

/-- C8: showTerms is deterministic: two runs against clients holding the
same stored url, with the same name and revision, issue the same request
path, and given the same transport outcome they invoke their callbacks
with the same arguments. -/
theorem showTerms_deterministic (parse : String → Option Int)
    (c c2 : TermsClient) (name : String) (rev : JSValue)
    (o : TransportOutcome) (h : c.url = c2.url) :
    showTermsRun parse c name rev o = showTermsRun parse c2 name rev o := by
  simp [showTermsRun, h]

/-- Witness for showTerms_deterministic: two clients with the same stored
url but distinct transport handles. -/
theorem showTerms_deterministic_witness :
    (TermsClient.mk "http://1.2.3.4/v1" 1).url =
      (TermsClient.mk "http://1.2.3.4/v1" 2).url ∧
    showTermsRun (fun _ => some 0) (TermsClient.mk "http://1.2.3.4/v1" 1)
        "canonical" (.num 42) (.success []) =
      showTermsRun (fun _ => some 0) (TermsClient.mk "http://1.2.3.4/v1" 2)
        "canonical" (.num 42) (.success []) :=
  ⟨rfl, showTerms_deterministic (fun _ => some 0)
    (TermsClient.mk "http://1.2.3.4/v1" 1) (TermsClient.mk "http://1.2.3.4/v1" 2)
    "canonical" (.num 42) (.success []) rfl⟩

/-- C9: the state-passing translation of showTerms returns the client state
unchanged: the stored url and bakery fields after a call equal those before
it, and a second call starting from the state a first call returned behaves
exactly as a call on the original client, so calls share no mutable state. -/
theorem showTerms_frame (parse : String → Option Int) (c : TermsClient)
    (name : String) (rev : JSValue) (o : TransportOutcome) :
    (showTermsSt parse c name rev o).1 = c ∧
    (showTermsSt parse c name rev o).1.url = c.url ∧
    (showTermsSt parse c name rev o).1.bakery = c.bakery ∧
    ∀ (name2 : String) (rev2 : JSValue) (o2 : TransportOutcome),
      showTermsSt parse (showTermsSt parse c name rev o).1 name2 rev2 o2 =
        showTermsSt parse c name2 rev2 o2 :=
  ⟨rfl, rfl, rfl, fun _ _ _ => rfl⟩

/-- The state-passing translation issues the same request path as the
direct path model. -/
theorem showTermsSt_path (parse : String → Option Int) (c : TermsClient)
    (name : String) (rev : JSValue) (o : TransportOutcome) :
    (showTermsSt parse c name rev o).2.1 = showTermsPath c.url name rev :=
  rfl

/-- When the guard holds, the path carries the query string. -/
theorem showTermsPath_present (u name : String) (v : JSValue)
    (h : revisionPresent v = true) :
    showTermsPath u name v =
      u ++ "/terms/" ++ name ++ "?revision=" ++ jsToString v := by
  simp [showTermsPath, h]

/-- When the guard fails, the path has no query string. -/
theorem showTermsPath_absent (u name : String) (v : JSValue)
    (h : revisionPresent v = false) :
    showTermsPath u name v = u ++ "/terms/" ++ name := by
  simp [showTermsPath, h]

/-- A path with a revision query differs from the bare path. -/
theorem revision_query_ne (u s : String) : u ++ "?revision=" ++ s ≠ u := by
  rw [String.append_assoc]
  apply append_ne_self
  rw [String.length_append]
  have h10 : ("?revision=" : String).length = 10 := rfl
  omega

/-- C10: every falsy revision other than the number 0 (undefined, empty
string, false, NaN, and null alike) yields a path with no query string, and
the revision-present branch is taken precisely when the revision is the
number 0 or a truthy value. -/
theorem showTerms_falsy_revision (u name : String) :
    showTermsPath u name .undefined = u ++ "/terms/" ++ name ∧
    showTermsPath u name (.str "") = u ++ "/terms/" ++ name ∧
    showTermsPath u name (.bool false) = u ++ "/terms/" ++ name ∧
    showTermsPath u name .nan = u ++ "/terms/" ++ name ∧
    showTermsPath u name .jsNull = u ++ "/terms/" ++ name ∧
    ∀ v : JSValue,
      (revisionPresent v = true ↔ (v = .num 0 ∨ truthy v = true)) ∧
      (showTermsPath u name v ≠ u ++ "/terms/" ++ name ↔
        (v = .num 0 ∨ truthy v = true)) := by
  refine ⟨rfl, rfl, rfl, rfl, rfl, fun v => ⟨?_, ?_⟩⟩
  · simp [revisionPresent]
  · constructor
    · intro hne
      by_contra hnp
      have h1 : v ≠ .num 0 := fun h => hnp (Or.inl h)
      have h2 : truthy v = false := by
        cases h : truthy v
        · rfl
        · exact absurd (Or.inr h) hnp
      have hfalse : revisionPresent v = false := by
        unfold revisionPresent
        rw [h2, decide_eq_false h1]
        rfl
      exact hne (showTermsPath_absent u name v hfalse)
    · intro hp
      have htrue : revisionPresent v = true := by
        unfold revisionPresent
        rcases hp with h | h
        · rw [decide_eq_true h]
          rfl
        · rw [h]
          simp
      rw [showTermsPath_present u name v htrue]
      exact revision_query_ne (u ++ "/terms/" ++ name) (jsToString v)
